import Mathlib

/-!
Verification of the error-classification layer of the `as-srt` repository
(`src/error.rs`): the `SrtError` and `SrtRejectReason` taxonomies, the
`handle_result` return-code interpreter, the `get_last_error` classifier and
the projection of `SrtError` onto `std::io::Error`.

Modelling conventions:
* The foreign numeric types `SRT_ERRNO` and `SRT_REJECT_REASON` are
  bindgen-style newtypes around a machine integer; they are embedded as
  structures wrapping `Int`, with the named constants of the SRT library.
* A Rust panic (`unreachable!`) is embedded as an explicit fatal outcome
  carrying the diagnostic string; functions that can panic return
  `Except String _`, where `Except.error msg` is the abort.
* The thread-local last-error slot read by `get_last_error` is passed as an
  explicit argument.
-/

namespace AsSrt

/-- The secondary taxonomy `SrtRejectReason` from `src/error.rs`:
why a connection attempt was rejected. -/
inductive SrtRejectReason
  | Unknown
  | System
  | Peer
  | Resource
  | Rogue
  | Backlog
  | IPE
  | Close
  | Version
  | RdvCookie
  | BadSecret
  | Unsecure
  | MessageAPI
  | Congestion
  | Filter
  | Group
  | Timeout
deriving DecidableEq

/-- The primary taxonomy `SrtError` from `src/error.rs`: every failure mode
the SRT library reports. Exactly one variant, `ConnRej`, carries a payload. -/
inductive SrtError
  | Unknown
  | Success
  | ConnSetup
  | NoServer
  | ConnRej (reason : SrtRejectReason)
  | SockFail
  | SecFail
  | Closed
  | ConnFail
  | ConnLost
  | NoConn
  | Resource
  | Thread
  | NoBuf
  | SysObj
  | File
  | InvRdOff
  | RdPerm
  | InvWrOff
  | WrPerm
  | InvOp
  | BoundSock
  | ConnSock
  | InvParam
  | InvSock
  | UnboundSock
  | NoListen
  | RdvNoServ
  | RdvUnbound
  | InvalMsgApi
  | InvalBufferApi
  | DupListen
  | LargeMsg
  | InvPollId
  | PollEmpty
  | AsyncFail
  | AsyncSnd
  | AsyncRcv
  | Timeout
  | Congest
  | PeerErr
deriving DecidableEq

/-- The foreign last-error code type `srt::SRT_ERRNO` of the `libsrt_sys`
bindings: a transparent newtype around a machine integer (which is what makes
the catch-all arm of the Rust `match` reachable). -/
structure SRT_ERRNO where
  val : Int
deriving DecidableEq

namespace SRT_ERRNO

def SRT_EUNKNOWN : SRT_ERRNO := ⟨-1⟩

def SRT_SUCCESS : SRT_ERRNO := ⟨0⟩

def SRT_ECONNSETUP : SRT_ERRNO := ⟨1000⟩

def SRT_ENOSERVER : SRT_ERRNO := ⟨1001⟩

def SRT_ECONNREJ : SRT_ERRNO := ⟨1002⟩

def SRT_ESOCKFAIL : SRT_ERRNO := ⟨1003⟩

def SRT_ESECFAIL : SRT_ERRNO := ⟨1004⟩

def SRT_ESCLOSED : SRT_ERRNO := ⟨1005⟩

def SRT_ECONNFAIL : SRT_ERRNO := ⟨2000⟩

def SRT_ECONNLOST : SRT_ERRNO := ⟨2001⟩

def SRT_ENOCONN : SRT_ERRNO := ⟨2002⟩

def SRT_ERESOURCE : SRT_ERRNO := ⟨3000⟩

def SRT_ETHREAD : SRT_ERRNO := ⟨3001⟩

def SRT_ENOBUF : SRT_ERRNO := ⟨3002⟩

def SRT_ESYSOBJ : SRT_ERRNO := ⟨3003⟩

def SRT_EFILE : SRT_ERRNO := ⟨4000⟩

def SRT_EINVRDOFF : SRT_ERRNO := ⟨4001⟩

def SRT_ERDPERM : SRT_ERRNO := ⟨4002⟩

def SRT_EINVWROFF : SRT_ERRNO := ⟨4003⟩

def SRT_EWRPERM : SRT_ERRNO := ⟨4004⟩

def SRT_EINVOP : SRT_ERRNO := ⟨5000⟩

def SRT_EBOUNDSOCK : SRT_ERRNO := ⟨5001⟩

def SRT_ECONNSOCK : SRT_ERRNO := ⟨5002⟩

def SRT_EINVPARAM : SRT_ERRNO := ⟨5003⟩

def SRT_EINVSOCK : SRT_ERRNO := ⟨5004⟩

def SRT_EUNBOUNDSOCK : SRT_ERRNO := ⟨5005⟩

def SRT_ENOLISTEN : SRT_ERRNO := ⟨5006⟩

def SRT_ERDVNOSERV : SRT_ERRNO := ⟨5007⟩

def SRT_ERDVUNBOUND : SRT_ERRNO := ⟨5008⟩

def SRT_EINVALMSGAPI : SRT_ERRNO := ⟨5009⟩

def SRT_EINVALBUFFERAPI : SRT_ERRNO := ⟨5010⟩

def SRT_EDUPLISTEN : SRT_ERRNO := ⟨5011⟩

def SRT_ELARGEMSG : SRT_ERRNO := ⟨5012⟩

def SRT_EINVPOLLID : SRT_ERRNO := ⟨5013⟩

def SRT_EPOLLEMPTY : SRT_ERRNO := ⟨5014⟩

def SRT_EASYNCFAIL : SRT_ERRNO := ⟨6000⟩

def SRT_EASYNCSND : SRT_ERRNO := ⟨6001⟩

def SRT_EASYNCRCV : SRT_ERRNO := ⟨6002⟩

def SRT_ETIMEOUT : SRT_ERRNO := ⟨6003⟩

def SRT_ECONGEST : SRT_ERRNO := ⟨6004⟩

def SRT_EPEERERR : SRT_ERRNO := ⟨7000⟩

end SRT_ERRNO

/-- The 41 numeric codes named by the foreign error enumeration, i.e. exactly
those covered by a named arm of the `From<srt::SRT_ERRNO> for SrtError` match. -/
def knownErrnos : List SRT_ERRNO :=
  [SRT_ERRNO.SRT_EUNKNOWN, SRT_ERRNO.SRT_SUCCESS, SRT_ERRNO.SRT_ECONNSETUP,
   SRT_ERRNO.SRT_ENOSERVER, SRT_ERRNO.SRT_ECONNREJ, SRT_ERRNO.SRT_ESOCKFAIL,
   SRT_ERRNO.SRT_ESECFAIL, SRT_ERRNO.SRT_ESCLOSED, SRT_ERRNO.SRT_ECONNFAIL,
   SRT_ERRNO.SRT_ECONNLOST, SRT_ERRNO.SRT_ENOCONN, SRT_ERRNO.SRT_ERESOURCE,
   SRT_ERRNO.SRT_ETHREAD, SRT_ERRNO.SRT_ENOBUF, SRT_ERRNO.SRT_ESYSOBJ,
   SRT_ERRNO.SRT_EFILE, SRT_ERRNO.SRT_EINVRDOFF, SRT_ERRNO.SRT_ERDPERM,
   SRT_ERRNO.SRT_EINVWROFF, SRT_ERRNO.SRT_EWRPERM, SRT_ERRNO.SRT_EINVOP,
   SRT_ERRNO.SRT_EBOUNDSOCK, SRT_ERRNO.SRT_ECONNSOCK, SRT_ERRNO.SRT_EINVPARAM,
   SRT_ERRNO.SRT_EINVSOCK, SRT_ERRNO.SRT_EUNBOUNDSOCK, SRT_ERRNO.SRT_ENOLISTEN,
   SRT_ERRNO.SRT_ERDVNOSERV, SRT_ERRNO.SRT_ERDVUNBOUND,
   SRT_ERRNO.SRT_EINVALMSGAPI, SRT_ERRNO.SRT_EINVALBUFFERAPI,
   SRT_ERRNO.SRT_EDUPLISTEN, SRT_ERRNO.SRT_ELARGEMSG,
   SRT_ERRNO.SRT_EINVPOLLID, SRT_ERRNO.SRT_EPOLLEMPTY,
   SRT_ERRNO.SRT_EASYNCFAIL, SRT_ERRNO.SRT_EASYNCSND,
   SRT_ERRNO.SRT_EASYNCRCV, SRT_ERRNO.SRT_ETIMEOUT, SRT_ERRNO.SRT_ECONGEST,
   SRT_ERRNO.SRT_EPEERERR]

/-- `impl From<srt::SRT_ERRNO> for SrtError` from `src/error.rs`: the primary
numeric-code-to-variant mapping. The Rust catch-all arm
`_ => unreachable!("unrecognized error no")` is embedded as
`Except.error "unrecognized error no"`. -/
def SrtError.fromErrno (c : SRT_ERRNO) : Except String SrtError :=
  if c = SRT_ERRNO.SRT_EUNKNOWN then Except.ok SrtError.Unknown
  else if c = SRT_ERRNO.SRT_SUCCESS then Except.ok SrtError.Success
  else if c = SRT_ERRNO.SRT_ECONNSETUP then Except.ok SrtError.ConnSetup
  else if c = SRT_ERRNO.SRT_ENOSERVER then Except.ok SrtError.NoServer
  else if c = SRT_ERRNO.SRT_ECONNREJ then
    Except.ok (SrtError.ConnRej SrtRejectReason.Unknown)
  else if c = SRT_ERRNO.SRT_ESOCKFAIL then Except.ok SrtError.SockFail
  else if c = SRT_ERRNO.SRT_ESECFAIL then Except.ok SrtError.SecFail
  else if c = SRT_ERRNO.SRT_ESCLOSED then Except.ok SrtError.Closed
  else if c = SRT_ERRNO.SRT_ECONNFAIL then Except.ok SrtError.ConnFail
  else if c = SRT_ERRNO.SRT_ECONNLOST then Except.ok SrtError.ConnLost
  else if c = SRT_ERRNO.SRT_ENOCONN then Except.ok SrtError.NoConn
  else if c = SRT_ERRNO.SRT_ERESOURCE then Except.ok SrtError.Resource
  else if c = SRT_ERRNO.SRT_ETHREAD then Except.ok SrtError.Thread
  else if c = SRT_ERRNO.SRT_ENOBUF then Except.ok SrtError.NoBuf
  else if c = SRT_ERRNO.SRT_ESYSOBJ then Except.ok SrtError.SysObj
  else if c = SRT_ERRNO.SRT_EFILE then Except.ok SrtError.File
  else if c = SRT_ERRNO.SRT_EINVRDOFF then Except.ok SrtError.InvRdOff
  else if c = SRT_ERRNO.SRT_ERDPERM then Except.ok SrtError.RdPerm
  else if c = SRT_ERRNO.SRT_EINVWROFF then Except.ok SrtError.InvWrOff
  else if c = SRT_ERRNO.SRT_EWRPERM then Except.ok SrtError.WrPerm
  else if c = SRT_ERRNO.SRT_EINVOP then Except.ok SrtError.InvOp
  else if c = SRT_ERRNO.SRT_EBOUNDSOCK then Except.ok SrtError.BoundSock
  else if c = SRT_ERRNO.SRT_ECONNSOCK then Except.ok SrtError.ConnSock
  else if c = SRT_ERRNO.SRT_EINVPARAM then Except.ok SrtError.InvParam
  else if c = SRT_ERRNO.SRT_EINVSOCK then Except.ok SrtError.InvSock
  else if c = SRT_ERRNO.SRT_EUNBOUNDSOCK then Except.ok SrtError.UnboundSock
  else if c = SRT_ERRNO.SRT_ENOLISTEN then Except.ok SrtError.NoListen
  else if c = SRT_ERRNO.SRT_ERDVNOSERV then Except.ok SrtError.RdvNoServ
  else if c = SRT_ERRNO.SRT_ERDVUNBOUND then Except.ok SrtError.RdvUnbound
  else if c = SRT_ERRNO.SRT_EINVALMSGAPI then Except.ok SrtError.InvalMsgApi
  else if c = SRT_ERRNO.SRT_EINVALBUFFERAPI then Except.ok SrtError.InvalBufferApi
  else if c = SRT_ERRNO.SRT_EDUPLISTEN then Except.ok SrtError.DupListen
  else if c = SRT_ERRNO.SRT_ELARGEMSG then Except.ok SrtError.LargeMsg
  else if c = SRT_ERRNO.SRT_EINVPOLLID then Except.ok SrtError.InvPollId
  else if c = SRT_ERRNO.SRT_EPOLLEMPTY then Except.ok SrtError.PollEmpty
  else if c = SRT_ERRNO.SRT_EASYNCFAIL then Except.ok SrtError.AsyncFail
  else if c = SRT_ERRNO.SRT_EASYNCSND then Except.ok SrtError.AsyncSnd
  else if c = SRT_ERRNO.SRT_EASYNCRCV then Except.ok SrtError.AsyncRcv
  else if c = SRT_ERRNO.SRT_ETIMEOUT then Except.ok SrtError.Timeout
  else if c = SRT_ERRNO.SRT_ECONGEST then Except.ok SrtError.Congest
  else if c = SRT_ERRNO.SRT_EPEERERR then Except.ok SrtError.PeerErr
  else Except.error "unrecognized error no"

/-- `get_last_error` from `src/error.rs`: reads the foreign thread-local
last-error slot and classifies it. The slot is passed explicitly; the
classification may abort on an unrecognized code. -/
def get_last_error (slot : SRT_ERRNO) : Except String SrtError :=
  SrtError.fromErrno slot

/-- Outcome of `handle_result`: an ordinary `Result` value, or a process
abort (Rust panic) carrying its diagnostic. -/
inductive HR (T : Type)
  | ok : T → HR T
  | err : SrtError → HR T
  | fatal : String → HR T
deriving DecidableEq

/-- `handle_result` from `src/error.rs`: interprets a protocol operation's
return code. `0` succeeds with the supplied value, `-1` classifies the
last-error slot, anything else panics with a diagnostic naming the code. -/
def handle_result {T : Type} (ok : T) (return_code : Int) (slot : SRT_ERRNO) : HR T :=
  if return_code = 0 then HR.ok ok
  else if return_code = -1 then
    match get_last_error slot with
    | Except.ok e => HR.err e
    | Except.error m => HR.fatal m
  else HR.fatal ("unrecognized return code " ++ toString return_code)

/-- The portable I/O error categories (`std::io::ErrorKind` values) used by
the projection in `src/error.rs`. -/
inductive ErrorKind
  | Other
  | ConnectionRefused
  | ConnectionAborted
  | NotConnected
  | AddrNotAvailable
  | AddrInUse
  | InvalidInput
  | PermissionDenied
  | NotFound
  | TimedOut
  | WouldBlock
deriving DecidableEq

/-- A `std::io::Error` as built by `io::Error::new(kind, e)`: a portable
category together with the inner structured error it was built from. -/
structure IoError where
  kind : ErrorKind
  payload : SrtError
deriving DecidableEq

/-- `impl From<SrtError> for io::Error` from `src/error.rs`: the generic
projection. The kind comes from the per-variant match; the whole `SrtError`
value is stored as the inner payload. -/
def SrtError.toIoError (e : SrtError) : IoError :=
  { kind :=
      match e with
      | SrtError.Unknown => ErrorKind.Other
      | SrtError.Success => ErrorKind.Other
      | SrtError.ConnSetup => ErrorKind.ConnectionRefused
      | SrtError.NoServer => ErrorKind.ConnectionRefused
      | SrtError.ConnRej _ => ErrorKind.ConnectionRefused
      | SrtError.SockFail => ErrorKind.AddrNotAvailable
      | SrtError.SecFail => ErrorKind.ConnectionRefused
      | SrtError.ConnFail => ErrorKind.ConnectionRefused
      | SrtError.Closed => ErrorKind.AddrNotAvailable
      | SrtError.ConnLost => ErrorKind.ConnectionAborted
      | SrtError.NoConn => ErrorKind.NotConnected
      | SrtError.Resource => ErrorKind.Other
      | SrtError.Thread => ErrorKind.Other
      | SrtError.NoBuf => ErrorKind.Other
      | SrtError.SysObj => ErrorKind.Other
      | SrtError.File => ErrorKind.NotFound
      | SrtError.InvRdOff => ErrorKind.InvalidInput
      | SrtError.RdPerm => ErrorKind.PermissionDenied
      | SrtError.InvWrOff => ErrorKind.InvalidInput
      | SrtError.WrPerm => ErrorKind.PermissionDenied
      | SrtError.InvOp => ErrorKind.InvalidInput
      | SrtError.BoundSock => ErrorKind.AddrInUse
      | SrtError.ConnSock => ErrorKind.AddrInUse
      | SrtError.InvParam => ErrorKind.InvalidInput
      | SrtError.InvSock => ErrorKind.AddrNotAvailable
      | SrtError.UnboundSock => ErrorKind.NotConnected
      | SrtError.NoListen => ErrorKind.InvalidInput
      | SrtError.RdvNoServ => ErrorKind.ConnectionRefused
      | SrtError.RdvUnbound => ErrorKind.ConnectionRefused
      | SrtError.InvalMsgApi => ErrorKind.InvalidInput
      | SrtError.InvalBufferApi => ErrorKind.InvalidInput
      | SrtError.DupListen => ErrorKind.AddrInUse
      | SrtError.LargeMsg => ErrorKind.Other
      | SrtError.InvPollId => ErrorKind.AddrNotAvailable
      | SrtError.PollEmpty => ErrorKind.Other
      | SrtError.AsyncFail => ErrorKind.WouldBlock
      | SrtError.AsyncSnd => ErrorKind.WouldBlock
      | SrtError.AsyncRcv => ErrorKind.WouldBlock
      | SrtError.Timeout => ErrorKind.TimedOut
      | SrtError.Congest => ErrorKind.Other
      | SrtError.PeerErr => ErrorKind.Other,
    payload := e }

/-- The generic-projection mapping table exactly as written in the spec
(section 4, `to_generic_category`), transcribed row by row from the spec's
words for comparison against `SrtError.toIoError`. -/
def specGenericCategory (e : SrtError) : ErrorKind :=
  match e with
  | SrtError.ConnSetup => ErrorKind.ConnectionRefused
  | SrtError.NoServer => ErrorKind.ConnectionRefused
  | SrtError.ConnRej _ => ErrorKind.ConnectionRefused
  | SrtError.SecFail => ErrorKind.ConnectionRefused
  | SrtError.ConnFail => ErrorKind.ConnectionRefused
  | SrtError.RdvNoServ => ErrorKind.ConnectionRefused
  | SrtError.RdvUnbound => ErrorKind.ConnectionRefused
  | SrtError.ConnLost => ErrorKind.ConnectionAborted
  | SrtError.NoConn => ErrorKind.NotConnected
  | SrtError.UnboundSock => ErrorKind.NotConnected
  | SrtError.SockFail => ErrorKind.AddrNotAvailable
  | SrtError.Closed => ErrorKind.AddrNotAvailable
  | SrtError.InvSock => ErrorKind.AddrNotAvailable
  | SrtError.InvPollId => ErrorKind.AddrNotAvailable
  | SrtError.BoundSock => ErrorKind.AddrInUse
  | SrtError.ConnSock => ErrorKind.AddrInUse
  | SrtError.DupListen => ErrorKind.AddrInUse
  | SrtError.InvRdOff => ErrorKind.InvalidInput
  | SrtError.InvWrOff => ErrorKind.InvalidInput
  | SrtError.InvOp => ErrorKind.InvalidInput
  | SrtError.InvParam => ErrorKind.InvalidInput
  | SrtError.NoListen => ErrorKind.InvalidInput
  | SrtError.InvalMsgApi => ErrorKind.InvalidInput
  | SrtError.InvalBufferApi => ErrorKind.InvalidInput
  | SrtError.RdPerm => ErrorKind.PermissionDenied
  | SrtError.WrPerm => ErrorKind.PermissionDenied
  | SrtError.File => ErrorKind.NotFound
  | SrtError.Timeout => ErrorKind.TimedOut
  | SrtError.AsyncFail => ErrorKind.WouldBlock
  | SrtError.AsyncSnd => ErrorKind.WouldBlock
  | SrtError.AsyncRcv => ErrorKind.WouldBlock
  | SrtError.Unknown => ErrorKind.Other
  | SrtError.Success => ErrorKind.Other
  | SrtError.Resource => ErrorKind.Other
  | SrtError.Thread => ErrorKind.Other
  | SrtError.NoBuf => ErrorKind.Other
  | SrtError.SysObj => ErrorKind.Other
  | SrtError.LargeMsg => ErrorKind.Other
  | SrtError.PollEmpty => ErrorKind.Other
  | SrtError.Congest => ErrorKind.Other
  | SrtError.PeerErr => ErrorKind.Other

/-- The foreign reject-reason code type `srt::SRT_REJECT_REASON` of the
`libsrt_sys` bindings: a transparent newtype around a machine integer. -/
structure SRT_REJECT_REASON where
  val : Int
deriving DecidableEq

namespace SRT_REJECT_REASON

def SRT_REJ_UNKNOWN : SRT_REJECT_REASON := ⟨0⟩

def SRT_REJ_SYSTEM : SRT_REJECT_REASON := ⟨1⟩

def SRT_REJ_PEER : SRT_REJECT_REASON := ⟨2⟩

def SRT_REJ_RESOURCE : SRT_REJECT_REASON := ⟨3⟩

def SRT_REJ_ROGUE : SRT_REJECT_REASON := ⟨4⟩

def SRT_REJ_BACKLOG : SRT_REJECT_REASON := ⟨5⟩

def SRT_REJ_IPE : SRT_REJECT_REASON := ⟨6⟩

def SRT_REJ_CLOSE : SRT_REJECT_REASON := ⟨7⟩

def SRT_REJ_VERSION : SRT_REJECT_REASON := ⟨8⟩

def SRT_REJ_RDVCOOKIE : SRT_REJECT_REASON := ⟨9⟩

def SRT_REJ_BADSECRET : SRT_REJECT_REASON := ⟨10⟩

def SRT_REJ_UNSECURE : SRT_REJECT_REASON := ⟨11⟩

def SRT_REJ_MESSAGEAPI : SRT_REJECT_REASON := ⟨12⟩

def SRT_REJ_CONGESTION : SRT_REJECT_REASON := ⟨13⟩

def SRT_REJ_FILTER : SRT_REJECT_REASON := ⟨14⟩

def SRT_REJ_GROUP : SRT_REJECT_REASON := ⟨15⟩

def SRT_REJ_TIMEOUT : SRT_REJECT_REASON := ⟨16⟩

end SRT_REJECT_REASON

/-- The 17 numeric codes named by the foreign reject-reason enumeration,
i.e. exactly those covered by a named arm of the
`From<srt::SRT_REJECT_REASON> for SrtRejectReason` match. -/
def knownRejectCodes : List SRT_REJECT_REASON :=
  [SRT_REJECT_REASON.SRT_REJ_UNKNOWN, SRT_REJECT_REASON.SRT_REJ_SYSTEM,
   SRT_REJECT_REASON.SRT_REJ_PEER, SRT_REJECT_REASON.SRT_REJ_RESOURCE,
   SRT_REJECT_REASON.SRT_REJ_ROGUE, SRT_REJECT_REASON.SRT_REJ_BACKLOG,
   SRT_REJECT_REASON.SRT_REJ_IPE, SRT_REJECT_REASON.SRT_REJ_CLOSE,
   SRT_REJECT_REASON.SRT_REJ_VERSION, SRT_REJECT_REASON.SRT_REJ_RDVCOOKIE,
   SRT_REJECT_REASON.SRT_REJ_BADSECRET, SRT_REJECT_REASON.SRT_REJ_UNSECURE,
   SRT_REJECT_REASON.SRT_REJ_MESSAGEAPI, SRT_REJECT_REASON.SRT_REJ_CONGESTION,
   SRT_REJECT_REASON.SRT_REJ_FILTER, SRT_REJECT_REASON.SRT_REJ_GROUP,
   SRT_REJECT_REASON.SRT_REJ_TIMEOUT]

/-- `impl From<srt::SRT_REJECT_REASON> for SrtRejectReason` from
`src/error.rs`: the reject-reason mapping. The Rust catch-all arm
`_ => unreachable!("unrecognized SRT_REJECT_REASON")` is embedded as
`Except.error "unrecognized SRT_REJECT_REASON"`. -/
def SrtRejectReason.fromRaw (c : SRT_REJECT_REASON) : Except String SrtRejectReason :=
  if c = SRT_REJECT_REASON.SRT_REJ_UNKNOWN then Except.ok SrtRejectReason.Unknown
  else if c = SRT_REJECT_REASON.SRT_REJ_SYSTEM then Except.ok SrtRejectReason.System
  else if c = SRT_REJECT_REASON.SRT_REJ_PEER then Except.ok SrtRejectReason.Peer
  else if c = SRT_REJECT_REASON.SRT_REJ_RESOURCE then Except.ok SrtRejectReason.Resource
  else if c = SRT_REJECT_REASON.SRT_REJ_ROGUE then Except.ok SrtRejectReason.Rogue
  else if c = SRT_REJECT_REASON.SRT_REJ_BACKLOG then Except.ok SrtRejectReason.Backlog
  else if c = SRT_REJECT_REASON.SRT_REJ_IPE then Except.ok SrtRejectReason.IPE
  else if c = SRT_REJECT_REASON.SRT_REJ_CLOSE then Except.ok SrtRejectReason.Close
  else if c = SRT_REJECT_REASON.SRT_REJ_VERSION then Except.ok SrtRejectReason.Version
  else if c = SRT_REJECT_REASON.SRT_REJ_RDVCOOKIE then Except.ok SrtRejectReason.RdvCookie
  else if c = SRT_REJECT_REASON.SRT_REJ_BADSECRET then Except.ok SrtRejectReason.BadSecret
  else if c = SRT_REJECT_REASON.SRT_REJ_UNSECURE then Except.ok SrtRejectReason.Unsecure
  else if c = SRT_REJECT_REASON.SRT_REJ_MESSAGEAPI then Except.ok SrtRejectReason.MessageAPI
  else if c = SRT_REJECT_REASON.SRT_REJ_CONGESTION then Except.ok SrtRejectReason.Congestion
  else if c = SRT_REJECT_REASON.SRT_REJ_FILTER then Except.ok SrtRejectReason.Filter
  else if c = SRT_REJECT_REASON.SRT_REJ_GROUP then Except.ok SrtRejectReason.Group
  else if c = SRT_REJECT_REASON.SRT_REJ_TIMEOUT then Except.ok SrtRejectReason.Timeout
  else Except.error "unrecognized SRT_REJECT_REASON"

/-- C1: the generic projection is defined for every `SrtError` variant and
reproduces the spec's mapping table exactly: for every variant (including
`ConnRej` with any payload) the projected category equals the one given by
the spec's table. -/
theorem toIoError_kind_matches_spec_table :
    ∀ e : SrtError, (SrtError.toIoError e).kind = specGenericCategory e := by
  intro e
  cases e <;> rfl

/-- C2: the primary numeric-code mapping is total over the foreign error
enumeration — every known numeric code maps to a variant — and any numeric
code outside the enumeration aborts fatally instead of returning a variant
(in particular it is never coerced to a default such as `Unknown`). -/
theorem fromErrno_totality :
    ∀ c : SRT_ERRNO,
      (c ∈ knownErrnos → ∃ e, SrtError.fromErrno c = Except.ok e) ∧
      (c ∉ knownErrnos →
        SrtError.fromErrno c = Except.error "unrecognized error no") := by
  intro c
  constructor
  · intro h
    fin_cases h <;> exact ⟨_, rfl⟩
  · intro h
    simp only [knownErrnos, List.mem_cons, List.mem_singleton] at h
    push_neg at h
    obtain ⟨h1, h2, h3, h4, h5, h6, h7, h8, h9, h10, h11, h12, h13, h14, h15,
      h16, h17, h18, h19, h20, h21, h22, h23, h24, h25, h26, h27, h28, h29,
      h30, h31, h32, h33, h34, h35, h36, h37, h38, h39, h40, h41, -⟩ := h
    simp only [SrtError.fromErrno, if_neg h1, if_neg h2, if_neg h3, if_neg h4,
      if_neg h5, if_neg h6, if_neg h7, if_neg h8, if_neg h9, if_neg h10,
      if_neg h11, if_neg h12, if_neg h13, if_neg h14, if_neg h15, if_neg h16,
      if_neg h17, if_neg h18, if_neg h19, if_neg h20, if_neg h21, if_neg h22,
      if_neg h23, if_neg h24, if_neg h25, if_neg h26, if_neg h27, if_neg h28,
      if_neg h29, if_neg h30, if_neg h31, if_neg h32, if_neg h33, if_neg h34,
      if_neg h35, if_neg h36, if_neg h37, if_neg h38, if_neg h39, if_neg h40,
      if_neg h41]

/-- Witness for C2: the timeout code is classified successfully, and a code
outside the enumeration (12345) aborts fatally. -/
theorem fromErrno_totality_witness :
    (∃ e, SrtError.fromErrno SRT_ERRNO.SRT_ETIMEOUT = Except.ok e) ∧
    SrtError.fromErrno ⟨12345⟩ = Except.error "unrecognized error no" :=
  ⟨(fromErrno_totality SRT_ERRNO.SRT_ETIMEOUT).1 (by decide),
   (fromErrno_totality ⟨12345⟩).2 (by decide)⟩

/-- C3: interpreting return code 0 always succeeds with exactly the supplied
value, for every type, value and state of the last-error slot (the result
does not depend on the slot, i.e. no foreign read is performed). -/
theorem handle_result_zero {T : Type} (x : T) (slot : SRT_ERRNO) :
    handle_result x 0 slot = HR.ok x := rfl

/-- C4: interpreting return code -1 never succeeds, and whenever classifying
the last-error slot yields an error code `e`, the interpreter returns exactly
`e` as the failure. -/
theorem handle_result_neg_one {T : Type} (x : T) (slot : SRT_ERRNO) :
    (∀ y : T, handle_result x (-1) slot ≠ HR.ok y) ∧
    (∀ e : SrtError, get_last_error slot = Except.ok e →
      handle_result x (-1) slot = HR.err e) := by
  constructor
  · intro y
    simp only [handle_result]
    norm_num
    cases hg : get_last_error slot <;> simp
  · intro e he
    simp [handle_result, he]

/-- Witness for C4: with the timeout code in the slot, return code -1 yields
the `Timeout` failure. -/
theorem handle_result_neg_one_witness :
    handle_result (37 : Nat) (-1) SRT_ERRNO.SRT_ETIMEOUT =
      HR.err SrtError.Timeout :=
  (handle_result_neg_one 37 SRT_ERRNO.SRT_ETIMEOUT).2 SrtError.Timeout rfl

/-- C5: any return code other than 0 and -1 makes the interpreter abort with
a diagnostic naming the unexpected code; it returns neither a success nor an
error value. -/
theorem handle_result_other_code {T : Type} (x : T) (slot : SRT_ERRNO)
    (rc : Int) (h0 : rc ≠ 0) (h1 : rc ≠ -1) :
    handle_result x rc slot =
      HR.fatal ("unrecognized return code " ++ toString rc) ∧
    (∀ y : T, handle_result x rc slot ≠ HR.ok y) ∧
    (∀ e : SrtError, handle_result x rc slot ≠ HR.err e) := by
  refine ⟨?_, ?_, ?_⟩ <;> simp [handle_result, h0, h1]

/-- Witness for C5: return code 7 aborts with the diagnostic naming 7. -/
theorem handle_result_other_code_witness :
    handle_result (0 : Nat) 7 SRT_ERRNO.SRT_SUCCESS =
      HR.fatal ("unrecognized return code " ++ toString (7 : Int)) :=
  (handle_result_other_code (0 : Nat) SRT_ERRNO.SRT_SUCCESS 7
    (by decide) (by decide)).1

/-- C6: the connection-rejected numeric code classifies to `ConnRej` with its
payload initialized to the `Unknown` placeholder, never any other reason. -/
theorem get_last_error_connrej :
    get_last_error SRT_ERRNO.SRT_ECONNREJ =
      Except.ok (SrtError.ConnRej SrtRejectReason.Unknown) := rfl

/-- C7: the generic projection of `ConnRej` ignores the embedded payload: for
every reason it is connection-refused, and any two payloads give the same
category. -/
theorem connrej_category_payload_independent :
    ∀ r : SrtRejectReason,
      (SrtError.ConnRej r).toIoError.kind = ErrorKind.ConnectionRefused ∧
      ∀ r2 : SrtRejectReason,
        (SrtError.ConnRej r).toIoError.kind =
          (SrtError.ConnRej r2).toIoError.kind :=
  fun _ => ⟨rfl, fun _ => rfl⟩

/-- C8: the reject-reason mapping is total over the 17 known codes, maps the
bad-secret code to `BadSecret`, and aborts fatally on any code outside the
17 instead of returning a default variant. -/
theorem fromRaw_totality :
    ∀ c : SRT_REJECT_REASON,
      (c ∈ knownRejectCodes → ∃ r, SrtRejectReason.fromRaw c = Except.ok r) ∧
      (SrtRejectReason.fromRaw SRT_REJECT_REASON.SRT_REJ_BADSECRET =
        Except.ok SrtRejectReason.BadSecret) ∧
      (c ∉ knownRejectCodes →
        SrtRejectReason.fromRaw c =
          Except.error "unrecognized SRT_REJECT_REASON") := by
  intro c
  refine ⟨?_, rfl, ?_⟩
  · intro h
    fin_cases h <;> exact ⟨_, rfl⟩
  · intro h
    simp only [knownRejectCodes, List.mem_cons, List.mem_singleton] at h
    push_neg at h
    obtain ⟨h1, h2, h3, h4, h5, h6, h7, h8, h9, h10, h11, h12, h13, h14, h15,
      h16, h17, -⟩ := h
    simp only [SrtRejectReason.fromRaw, if_neg h1, if_neg h2, if_neg h3,
      if_neg h4, if_neg h5, if_neg h6, if_neg h7, if_neg h8, if_neg h9,
      if_neg h10, if_neg h11, if_neg h12, if_neg h13, if_neg h14, if_neg h15,
      if_neg h16, if_neg h17]

/-- Witness for C8: the bad-secret code (10) maps successfully, and a code
outside the 17 (99) aborts fatally. -/
theorem fromRaw_totality_witness :
    (∃ r, SrtRejectReason.fromRaw SRT_REJECT_REASON.SRT_REJ_BADSECRET =
      Except.ok r) ∧
    SrtRejectReason.fromRaw ⟨99⟩ =
      Except.error "unrecognized SRT_REJECT_REASON" :=
  ⟨(fromRaw_totality SRT_REJECT_REASON.SRT_REJ_BADSECRET).1 (by decide),
   (fromRaw_totality ⟨99⟩).2.2 (by decide)⟩

/-- C9: the projection to the portable I/O error is not fully lossy — the
produced error carries the original `SrtError` value itself as its inner
payload, so the structured variant (including an embedded reject reason)
remains recoverable. -/
theorem toIoError_payload_preserved :
    ∀ e : SrtError, (SrtError.toIoError e).payload = e :=
  fun _ => rfl

/-- C10: with the SUCCESS code in the last-error slot, return code -1 yields
the failure value `err Success` (never turned back into success), and the
`Success` variant projects to the generic category `Other`. -/
theorem handle_result_success_slot :
    (∀ (T : Type) (x : T),
      handle_result x (-1) SRT_ERRNO.SRT_SUCCESS = HR.err SrtError.Success) ∧
    (SrtError.toIoError SrtError.Success).kind = ErrorKind.Other :=
  ⟨fun _ _ => rfl, rfl⟩

end AsSrt
